import Mathlib

/-!
Verification of the `fetchEither` result-assembly pipeline of the
`ts-error-value` library (src/fetch-either.ts, src/types.ts, src/utils.ts).

The code is shallowly embedded: JavaScript runtime values are modelled by
`JSValue` (with JavaScript truthiness), raised exceptions by `JSException`
(tracking the `instanceof` classes the code branches on), a `Response`
object by its observable fields (status, Content-Type header, and the
outcome of each body-reading operation), a Zod schema by its `safeParse`
behaviour (`Schema`), and the external `getReasonPhrase` lookup by a
function that either returns the phrase or raises.  `fetchEither` is then a
total Lean function from a transport outcome (a response, or a raised
failure) and the optional schemas to the result tuple.
-/

namespace TsErrorValue

/-- A JavaScript runtime value, as far as the library observes it:
`null`, booleans, numbers, strings, JSON-like objects and arrays, and the
opaque `Blob` / `FormData` results of the corresponding body readers. -/
inductive JSValue where
  | null
  | bool (b : Bool)
  | num (n : Int)
  | str (s : String)
  | obj (fields : List (String × JSValue))
  | arr (elems : List JSValue)
  | blob
  | formData (fields : List (String × String))

/-- JavaScript truthiness, used by `if (body && successPayloadSchema)`:
`null`, `false`, `0` and the empty string are falsy; objects, arrays,
blobs and form data are always truthy. -/
def JSValue.truthy : JSValue → Bool
  | .null => false
  | .bool b => b
  | .num n => n != 0
  | .str s => s != ""
  | .obj _ => true
  | .arr _ => true
  | .blob => true
  | .formData _ => true

/-- A raised JavaScript exception, classified by the `instanceof` checks the
code performs: `DOMException` (with its `name`), `TypeError`, `SyntaxError`,
any other `Error` subclass, or a thrown value that is not an `Error` at all.
Each `Error` carries its `message` and optional `stack`. -/
inductive JSException where
  | domException (name message : String) (stack : Option String)
  | typeError (message : String) (stack : Option String)
  | syntaxError (message : String) (stack : Option String)
  | otherError (message : String) (stack : Option String)
  | nonError

/-- `type ResponseParser = 'text' | 'formData' | 'json' | 'blob'`. -/
inductive ResponseParser where
  | text
  | formData
  | json
  | blob

/-- The closed error taxonomy `FetchEitherError`, one constructor per `type`
tag of the source unions: `UnknownError`, `HttpError` (with `code` and the
optional `properties` later assigned to it), the `'payload'` variant of
`ResponsePayloadError`, `ResponseValidationError`, and `FetchError`.
The `FetchError` sub-tag `'abort' | 'type' | 'syntax'` is `FetchSub`. -/
inductive FetchSub where
  | abort
  | tpe
  | stx

/-- One entry of `ResponseValidationError.errors`: a dot-joined path and a
message. -/
structure PathMessage where
  path : String
  message : String
deriving DecidableEq

inductive FetchEitherError where
  | unknown (message : String) (stack : Option String)
  | http (code : Nat) (message : String) (properties : Option JSValue)
  | payload (message : String) (stack : Option String)
      (responseContentType : Option String) (responseParser : Option ResponseParser)
  | responseValidation (message : String) (stack : Option String)
      (input : JSValue) (errors : List PathMessage)
  | fetchErr (sub : FetchSub) (message : String) (stack : Option String)

/-- The discriminating `type` tag of each error variant, as the string the
source stores in the `type` field. -/
def FetchEitherError.kindOf : FetchEitherError → String
  | .unknown _ _ => "unknown"
  | .http _ _ _ => "http"
  | .payload _ _ _ _ => "payload"
  | .responseValidation _ _ _ _ => "response-validation"
  | .fetchErr .abort _ _ => "abort"
  | .fetchErr .tpe _ _ => "type"
  | .fetchErr .stx _ _ => "syntax"

/-- The runtime shape of `EitherTuple<E, T>`: a pair whose first slot is the
error object or `null` (an `Option`), and whose second slot is a JavaScript
value — the literal `null` placeholder of `[error, null]` returns is
`JSValue.null`, indistinguishable at runtime from a success value that is
itself `null`. -/
abbrev EitherTuple := Option FetchEitherError × JSValue

/-- One Zod issue, before the `path.join('.')` mapping: a field path and a
message. -/
structure ZodIssue where
  path : List String
  message : String
deriving DecidableEq

/-- The outcome of `schema.safeParse(value)`: success with the (possibly
normalized) `data`, or failure with a `ZodError` carrying `issues` and an
optional `stack`. -/
inductive SchemaResult where
  | ok (data : JSValue)
  | fail (issues : List ZodIssue) (stack : Option String)

/-- A Zod schema, modelled by its `safeParse` behaviour. -/
abbrev Schema := JSValue → SchemaResult

/-- The `issue => (\x7b path: issue.path.join('.'), message: issue.message \x7d)`
mapping applied to each Zod issue. -/
def mapIssue (i : ZodIssue) : PathMessage :=
  { path := String.intercalate "." i.path, message := i.message }

/-- A `Response` object as observed by the code: its `status`, its
`Content-Type` header (`headers.get` returns `null` when absent), and the
outcome — a value, or a raised exception — of each body-reading method
(`text()`, `formData()`, `json()`, `blob()`). -/
structure Response where
  status : Nat
  contentType : Option String
  readText : Except JSException JSValue
  readFormData : Except JSException JSValue
  readJson : Except JSException JSValue
  readBlob : Except JSException JSValue

/-- Model of `response.ok`: per the Fetch standard, true exactly when the
status is in the range 200–299. -/
def Response.ok (r : Response) : Bool :=
  decide (200 ≤ r.status) && decide (r.status < 300)

/-- The body-reading method selected by the `match(responseType)` dispatch in
`extractPayload`. -/
def Response.read (r : Response) : ResponseParser → Except JSException JSValue
  | .text => r.readText
  | .formData => r.readFormData
  | .json => r.readJson
  | .blob => r.readBlob

/-- Model of `extractPayload(response, responseType)`: run the selected body reader;
on success return `[null, extractedBody]`.  On a raised exception, a
`TypeError` or `SyntaxError` becomes the `'payload'` error ("Failed to parse
response", carrying the declared content type and attempted parser); any
other `Error` (including a `DOMException`, which is an `Error` subclass)
becomes `'unknown'` with the original message and stack; a non-`Error` throw
yields the default `'unknown'` error with message "unkown error" (sic). -/
def extractPayload (response : Response) (responseType : ResponseParser) : EitherTuple :=
  match response.read responseType with
  | .ok extractedBody => (none, extractedBody)
  | .error e =>
    match e with
    | .typeError _ stk =>
        (some (.payload "Failed to parse response" stk response.contentType (some responseType)),
          .null)
    | .syntaxError _ stk =>
        (some (.payload "Failed to parse response" stk response.contentType (some responseType)),
          .null)
    | .domException _ msg stk => (some (.unknown msg stk), .null)
    | .otherError msg stk => (some (.unknown msg stk), .null)
    | .nonError => (some (.unknown "unkown error" none), .null)

/-- JavaScript string coercion of the `string | null` content type, as it
happens both in `RegExp.test` (which stringifies its argument) and in the
template literal of the unsupported-content-type message. -/
def ctString : Option String → String
  | none => "null"
  | some s => s

/-- Whether the pattern is an initial segment of the character list. -/
def leadMatch : List Char → List Char → Bool
  | [], _ => true
  | _ :: _, [] => false
  | p :: ps, c :: cs => (p == c) && leadMatch ps cs

/-- Whether the pattern occurs somewhere in the character list. -/
def subOccurs (pat : List Char) : List Char → Bool
  | [] => leadMatch pat []
  | c :: cs => leadMatch pat (c :: cs) || subOccurs pat cs

/-- Model of `matchRegex(expr)` with an unanchored literal regex: the pattern matches
exactly when it occurs as a substring of the tested string (`/image\/.*/`
likewise matches exactly when "image/" occurs, since `.*` also matches the
empty string). -/
def containsSub (s pat : String) : Bool :=
  subOccurs pat.data s.data

/-- The trailing `if (error) return [error, null]; return [null, payload]`
of `getResponsePayload`. -/
def finishTuple : EitherTuple → EitherTuple
  | (some e, _) => (some e, .null)
  | (none, payload) => (none, payload)

/-- Model of `getResponsePayload(response)`: route on the declared `Content-Type` by
the ordered regex rules (first match wins), extract with the selected
parser, and fall through to the "unsupported content type" `'payload'`
error when no rule matches. -/
def getResponsePayload (response : Response) : EitherTuple :=
  let contentType := response.contentType
  let ct := ctString contentType
  finishTuple
    (if containsSub ct "application/json" then extractPayload response .json
     else if containsSub ct "text/plain" then extractPayload response .text
     else if containsSub ct "text/html" then extractPayload response .text
     else if containsSub ct "application/xml" then extractPayload response .text
     else if containsSub ct "multipart/form-data" then extractPayload response .formData
     else if containsSub ct "application/x-www-form-urlencoded" then extractPayload response .formData
     else if containsSub ct "image/" then extractPayload response .blob
     else (some (.payload ("unsupported content type: " ++ ct) none contentType none), .null))

/-- The outcome of the `fetch(requestInfo, requestInit)` transport call: a
`Response`, or a raised transport failure. -/
inductive FetchOutcome where
  | response (r : Response)
  | raised (e : JSException)

/-- The `catch` block of `fetchEither`: a `DOMException` named "AbortError"
becomes `Fetch\x7babort\x7d`, any other `DOMException` becomes `'unknown'`; a
`TypeError` becomes `Fetch\x7btype\x7d`; a `SyntaxError` becomes `Fetch\x7bsyntax\x7d`;
any other `Error` becomes `'unknown'` with its message and stack; a
non-`Error` throw becomes `'unknown'` with message "unknown error". -/
def classifyTransport : JSException → FetchEitherError
  | .domException name msg stk =>
      if name = "AbortError" then .fetchErr .abort msg stk else .unknown msg stk
  | .typeError msg stk => .fetchErr .tpe msg stk
  | .syntaxError msg stk => .fetchErr .stx msg stk
  | .otherError msg stk => .unknown msg stk
  | .nonError => .unknown "unknown error" none

/-- The shared body of the two `ResponseValidationError` construction sites:
`type: 'response-validation'`, the `ZodError`'s stack, the raw payload as
`input`, the fixed message, and one mapped entry per Zod issue. -/
def mkValidationError (stk : Option String) (input : JSValue)
    (issues : List ZodIssue) : FetchEitherError :=
  .responseValidation "Response schema failed to parse the body" stk input
    (issues.map mapIssue)

/-- Model of `fetchEither`: the transport call is abstracted by its `FetchOutcome`
(the value of `await fetch(...)`, or the exception it raised), and the
external `getReasonPhrase` lookup by `grp`, which returns the phrase or
raises (the `http-status-codes` library throws an `Error` for a status code
it does not know).  A raised `grp` exception escapes to the outer `catch`,
exactly as in the source, where `getReasonPhrase(response.status)` is
evaluated inside the `try` before any body extraction. -/
def fetchEither (grp : Nat → Except JSException String) (outcome : FetchOutcome)
    (successPayloadSchema errorPayloadSchema : Option Schema) : EitherTuple :=
  match outcome with
  | .raised e => (some (classifyTransport e), .null)
  | .response response =>
    if !response.ok then
      match grp response.status with
      | .error ge => (some (classifyTransport ge), .null)
      | .ok phrase =>
        match getResponsePayload response with
        | (some payloadError, _) => (some payloadError, .null)
        | (none, payload) =>
          match errorPayloadSchema with
          | some schema =>
            match schema payload with
            | .ok data => (some (.http response.status phrase (some data)), .null)
            | .fail issues stk => (some (mkValidationError stk payload issues), .null)
          | none => (some (.http response.status phrase (some payload)), .null)
    else
      match getResponsePayload response with
      | (some e, _) => (some e, .null)
      | (none, body) =>
        match successPayloadSchema, body.truthy with
        | some schema, true =>
          match schema body with
          | .ok data => (none, data)
          | .fail issues stk => (some (mkValidationError stk body issues), .null)
        | _, _ => (none, body)

/-! ## Concrete instances used by witnesses and counterexamples -/

/-- A reason-phrase lookup defined on the statuses the concrete responses
below use. -/
def grpStd : Nat → Except JSException String :=
  fun code =>
    if code = 200 then .ok "OK"
    else if code = 500 then .ok "Internal Server Error"
    else .error (.otherError ("Status code does not exist: " ++ toString code) none)

/-- A 200 response declaring `application/json` whose body is the JSON text
`null`, so `json()` resolves to `null`. -/
def jsonNullResponse : Response where
  status := 200
  contentType := some "application/json"
  readText := .ok (.str "null")
  readFormData := .error (.typeError "Could not parse content as FormData." none)
  readJson := .ok .null
  readBlob := .ok .blob

/-- A 200 response declaring `application/json` whose body is the JSON text
`false`, so `json()` resolves to `false` — a falsy but non-null body. -/
def jsonFalseResponse : Response where
  status := 200
  contentType := some "application/json"
  readText := .ok (.str "false")
  readFormData := .error (.typeError "Could not parse content as FormData." none)
  readJson := .ok (.bool false)
  readBlob := .ok .blob

/-- The JSON object `\x7b error: "Server error" \x7d` of the error-path tests. -/
def serverErrorObj : JSValue := .obj [("error", .str "Server error")]

/-- A 500 response declaring `application/json` whose body decodes to
`serverErrorObj`. -/
def jsonErrorResponse : Response where
  status := 500
  contentType := some "application/json"
  readText := .ok (.str "error Server error")
  readFormData := .error (.typeError "Could not parse content as FormData." none)
  readJson := .ok serverErrorObj
  readBlob := .ok .blob

/-- A response with the non-standard status 599, on which the reason-phrase
lookup raises. -/
def status599Response : Response where
  status := 599
  contentType := some "application/json"
  readText := .ok (.str "error Server error")
  readFormData := .error (.typeError "Could not parse content as FormData." none)
  readJson := .ok serverErrorObj
  readBlob := .ok .blob

/-- A schema that accepts every value unchanged. -/
def schemaId : Schema := fun v => .ok v

/-- A schema that rejects every value with a single issue at path
`error`. -/
def schemaRejectAll : Schema := fun _ => .fail [⟨["error"], "Required"⟩] none

/-- The JSON object of the success-path test:
`\x7b name: "value", email: "my-email@gmail.com" \x7d`. -/
def namedObj : JSValue := .obj [("name", .str "value"), ("email", .str "my-email@gmail.com")]

/-- A 200 response declaring `application/json` whose body decodes to
`namedObj`. -/
def jsonOkResponse : Response where
  status := 200
  contentType := some "application/json"
  readText := .ok (.str "name value email my-email@gmail.com")
  readFormData := .error (.typeError "Could not parse content as FormData." none)
  readJson := .ok namedObj
  readBlob := .ok .blob

/-- A schema that accepts every value and normalizes it to `true` — it
accepts the falsy body `false` with a different output. -/
def schemaNormalizeFalse : Schema := fun _ => .ok (.bool true)

/-- The mutual-exclusivity predicate of the specified `Result` invariant:
exactly one slot is non-null. -/
def mutuallyExclusive (t : EitherTuple) : Prop :=
  (t.1 ≠ none ∧ t.2 = JSValue.null) ∨ (t.1 = none ∧ t.2 ≠ JSValue.null)

/-! ## Claims -/

/-- C1, counterexample: on a 200 response whose JSON body is `null` and with
no schemas supplied, `fetchEither` returns `[null, null]` — both slots null —
so the claimed mutual exclusivity fails on this call. -/
theorem fetchEither_not_mutuallyExclusive_on_json_null :
    fetchEither grpStd (.response jsonNullResponse) none none = (none, JSValue.null) ∧
    ¬ mutuallyExclusive (fetchEither grpStd (.response jsonNullResponse) none none) := by
  refine ⟨rfl, ?_⟩
  intro h
  rcases h with ⟨h1, _⟩ | ⟨_, h2⟩
  · exact h1 rfl
  · exact h2 rfl

/-- C1, amended: the slots are never both non-null — on every call, either
the value slot is null, or the error slot is null (and then the value slot
holds the decoded or validated body, which may itself be null). -/
theorem fetchEither_never_both_nonNull (grp : Nat → Except JSException String)
    (outcome : FetchOutcome) (ss es : Option Schema) :
    (fetchEither grp outcome ss es).2 = JSValue.null ∨
    (fetchEither grp outcome ss es).1 = none := by
  unfold fetchEither
  cases outcome with
  | raised e => exact Or.inl rfl
  | response r =>
    dsimp only
    repeat' split
    all_goals first
      | exact Or.inl rfl
      | exact Or.inr rfl

/-- C2: `fetchEither` is total over the closed taxonomy — every call returns
one tuple, and whenever the error slot is non-null its discriminating tag is
one of the five variants' tags. -/
theorem fetchEither_taxonomy_closed (grp : Nat → Except JSException String)
    (outcome : FetchOutcome) (ss es : Option Schema) :
    (fetchEither grp outcome ss es).1 = none ∨
    ∃ e, (fetchEither grp outcome ss es).1 = some e ∧
      e.kindOf ∈ ["unknown", "http", "payload", "response-validation",
        "abort", "type", "syntax"] := by
  cases h : (fetchEither grp outcome ss es).1 with
  | none => exact Or.inl rfl
  | some e =>
    refine Or.inr ⟨e, rfl, ?_⟩
    cases e with
    | fetchErr sub msg stk => cases sub <;> simp [FetchEitherError.kindOf]
    | _ => simp [FetchEitherError.kindOf]

/-- C3: on a non-success response whose reason-phrase lookup succeeds and
with an error-payload schema supplied — if extraction succeeds and the
schema accepts the payload, the error is the Http variant with `properties`
equal to the validated output; if the schema rejects it, the
ResponseValidation error is returned instead of the Http error; an
extraction failure is returned directly, superseding both. -/
theorem fetchEither_errorSchema_priority (grp : Nat → Except JSException String)
    (r : Response) (phrase : String) (sch : Schema) (ss : Option Schema)
    (hok : r.ok = false) (hgrp : grp r.status = .ok phrase) :
    (∀ payload data, getResponsePayload r = (none, payload) → sch payload = .ok data →
        fetchEither grp (.response r) ss (some sch)
          = (some (.http r.status phrase (some data)), .null))
    ∧ (∀ payload issues stk, getResponsePayload r = (none, payload) →
        sch payload = .fail issues stk →
        fetchEither grp (.response r) ss (some sch)
          = (some (mkValidationError stk payload issues), .null))
    ∧ (∀ e v, getResponsePayload r = (some e, v) →
        fetchEither grp (.response r) ss (some sch) = (some e, .null)) := by
  refine ⟨fun payload data hx hs => ?_, fun payload issues stk hx hs => ?_,
    fun e v hx => ?_⟩
  · simp [fetchEither, hok, hgrp, hx, hs]
  · simp [fetchEither, hok, hgrp, hx, hs]
  · simp [fetchEither, hok, hgrp, hx]

/-- C3 witness: a 500 JSON response with the accepting schema yields the
Http error with the validated payload as `properties`. -/
theorem fetchEither_errorSchema_priority_witness :
    jsonErrorResponse.ok = false ∧
    fetchEither grpStd (.response jsonErrorResponse) none (some schemaId)
      = (some (.http 500 "Internal Server Error" (some serverErrorObj)), .null) :=
  ⟨rfl,
    (fetchEither_errorSchema_priority grpStd jsonErrorResponse "Internal Server Error"
        schemaId none rfl rfl).1 serverErrorObj serverErrorObj rfl rfl⟩

/-- C4: on a non-success response whose reason-phrase lookup succeeds, with
no error schema and successful extraction, the error is the Http variant
whose `code` is the response status, whose `properties` is the raw extracted
payload, and whose `message` is the status's reason phrase. -/
theorem fetchEither_http_noSchema (grp : Nat → Except JSException String)
    (r : Response) (phrase : String) (ss : Option Schema) (payload : JSValue)
    (hok : r.ok = false) (hgrp : grp r.status = .ok phrase)
    (hx : getResponsePayload r = (none, payload)) :
    fetchEither grp (.response r) ss none
      = (some (.http r.status phrase (some payload)), .null) := by
  simp [fetchEither, hok, hgrp, hx]

/-- C4 witness: the 500 JSON response with no error schema yields the Http
error carrying the raw decoded body. -/
theorem fetchEither_http_noSchema_witness :
    jsonErrorResponse.ok = false ∧
    fetchEither grpStd (.response jsonErrorResponse) none none
      = (some (.http 500 "Internal Server Error" (some serverErrorObj)), .null) :=
  ⟨rfl,
    fetchEither_http_noSchema grpStd jsonErrorResponse "Internal Server Error"
      none serverErrorObj rfl rfl rfl⟩

/-- C10: on a non-success response whose status the reason-phrase lookup
does not know (it raises a plain Error), `fetchEither` returns the Unknown
error carrying that message — for every body-reader outcome and every
schema, since the lookup raises before any extraction or validation. -/
theorem fetchEither_unknown_on_reasonPhrase_raise
    (grp : Nat → Except JSException String) (r : Response) (msg : String)
    (stk : Option String) (ss es : Option Schema)
    (hok : r.ok = false) (hgrp : grp r.status = .error (.otherError msg stk)) :
    fetchEither grp (.response r) ss es = (some (.unknown msg stk), .null) := by
  simp [fetchEither, hok, hgrp, classifyTransport]

/-- C10 witness: the 599 response yields the Unknown error with the lookup's
message, not an Http error. -/
theorem fetchEither_unknown_on_reasonPhrase_raise_witness :
    status599Response.ok = false ∧
    fetchEither grpStd (.response status599Response) (some schemaId) (some schemaId)
      = (some (.unknown "Status code does not exist: 599" none), .null) :=
  ⟨rfl,
    fetchEither_unknown_on_reasonPhrase_raise grpStd status599Response
      "Status code does not exist: 599" none (some schemaId) (some schemaId) rfl rfl⟩

/-- C5, counterexample: on a 200 response whose JSON body is the falsy value
`false`, with a success schema that accepts that body and normalizes it to
`true`, `fetchEither` skips the schema (`if (body && successPayloadSchema)`)
and returns the raw body, not the schema's normalized output. -/
theorem fetchEither_skips_schema_on_falsy_body :
    schemaNormalizeFalse (JSValue.bool false) = .ok (JSValue.bool true) ∧
    fetchEither grpStd (.response jsonFalseResponse) (some schemaNormalizeFalse) none
      = (none, JSValue.bool false) ∧
    fetchEither grpStd (.response jsonFalseResponse) (some schemaNormalizeFalse) none
      ≠ (none, JSValue.bool true) := by
  refine ⟨rfl, rfl, fun h => ?_⟩
  have h2 : JSValue.bool false = JSValue.bool true := congrArg Prod.snd h
  exact Bool.false_ne_true (JSValue.bool.inj h2)

/-- C5, amended: on a successful response whose extraction succeeds, whose
decoded body is truthy (non-empty), and whose supplied success schema
accepts the body, the returned tuple is `(null, v)` with `v` the schema's
normalized output; for a falsy body the schema is skipped and the raw body
is returned. -/
theorem fetchEither_successSchema_normalizes (grp : Nat → Except JSException String)
    (r : Response) (es : Option Schema) (sch : Schema) (body data : JSValue)
    (hok : r.ok = true) (hx : getResponsePayload r = (none, body))
    (ht : body.truthy = true) (hs : sch body = .ok data) :
    fetchEither grp (.response r) (some sch) es = (none, data) := by
  simp [fetchEither, hok, hx, ht, hs]

/-- C5 witness: the 200 JSON object response with the identity schema
returns the normalized (here: unchanged) output as the value. -/
theorem fetchEither_successSchema_normalizes_witness :
    (JSValue.truthy namedObj) = true ∧
    fetchEither grpStd (.response jsonOkResponse) (some schemaId) none
      = (none, namedObj) :=
  ⟨rfl,
    fetchEither_successSchema_normalizes grpStd jsonOkResponse none schemaId
      namedObj namedObj rfl rfl rfl rfl⟩

/-- C6: on a successful response whose extraction succeeds, whose decoded
body is truthy (non-empty), and whose supplied success schema rejects the
body, the error is the ResponseValidation variant with one mapped entry per
Zod issue — the dot-joined path and the issue message — and with `input`
equal to the raw decoded body. -/
theorem fetchEither_successSchema_rejects (grp : Nat → Except JSException String)
    (r : Response) (es : Option Schema) (sch : Schema) (body : JSValue)
    (issues : List ZodIssue) (stk : Option String)
    (hok : r.ok = true) (hx : getResponsePayload r = (none, body))
    (ht : body.truthy = true) (hs : sch body = .fail issues stk) :
    fetchEither grp (.response r) (some sch) es
      = (some (.responseValidation "Response schema failed to parse the body" stk body
          (issues.map fun i => ⟨String.intercalate "." i.path, i.message⟩)), .null) := by
  simp [fetchEither, hok, hx, ht, hs, mkValidationError, mapIssue]

/-- C6 witness: the 200 JSON object response with the rejecting schema
yields the ResponseValidation error with the single mapped issue and the raw
body as `input`. -/
theorem fetchEither_successSchema_rejects_witness :
    schemaRejectAll namedObj = .fail [⟨["error"], "Required"⟩] none ∧
    fetchEither grpStd (.response jsonOkResponse) (some schemaRejectAll) none
      = (some (.responseValidation "Response schema failed to parse the body" none namedObj
          [⟨"error", "Required"⟩]), .null) :=
  ⟨rfl,
    fetchEither_successSchema_rejects grpStd jsonOkResponse none schemaRejectAll
      namedObj [⟨["error"], "Required"⟩] none rfl rfl rfl rfl⟩

/-- C7: the content-type router selects exactly one parser by the ordered
rules, first match winning — `application/json` selects `json` before the
text rules; `text/plain`, `text/html` or `application/xml` selects `text`;
`multipart/form-data` or `application/x-www-form-urlencoded` selects
`formData`; `image/` selects `blob`; and when no rule matches the result is
the `'payload'` error preserving the original declared content type, with no
value produced. -/
theorem getResponsePayload_router (r : Response) :
    (containsSub (ctString r.contentType) "application/json" = true →
      getResponsePayload r = finishTuple (extractPayload r .json))
    ∧ (containsSub (ctString r.contentType) "application/json" = false →
      (containsSub (ctString r.contentType) "text/plain" = true ∨
       containsSub (ctString r.contentType) "text/html" = true ∨
       containsSub (ctString r.contentType) "application/xml" = true) →
      getResponsePayload r = finishTuple (extractPayload r .text))
    ∧ (containsSub (ctString r.contentType) "application/json" = false →
      containsSub (ctString r.contentType) "text/plain" = false →
      containsSub (ctString r.contentType) "text/html" = false →
      containsSub (ctString r.contentType) "application/xml" = false →
      (containsSub (ctString r.contentType) "multipart/form-data" = true ∨
       containsSub (ctString r.contentType) "application/x-www-form-urlencoded" = true) →
      getResponsePayload r = finishTuple (extractPayload r .formData))
    ∧ (containsSub (ctString r.contentType) "application/json" = false →
      containsSub (ctString r.contentType) "text/plain" = false →
      containsSub (ctString r.contentType) "text/html" = false →
      containsSub (ctString r.contentType) "application/xml" = false →
      containsSub (ctString r.contentType) "multipart/form-data" = false →
      containsSub (ctString r.contentType) "application/x-www-form-urlencoded" = false →
      containsSub (ctString r.contentType) "image/" = true →
      getResponsePayload r = finishTuple (extractPayload r .blob))
    ∧ (containsSub (ctString r.contentType) "application/json" = false →
      containsSub (ctString r.contentType) "text/plain" = false →
      containsSub (ctString r.contentType) "text/html" = false →
      containsSub (ctString r.contentType) "application/xml" = false →
      containsSub (ctString r.contentType) "multipart/form-data" = false →
      containsSub (ctString r.contentType) "application/x-www-form-urlencoded" = false →
      containsSub (ctString r.contentType) "image/" = false →
      getResponsePayload r
        = (some (.payload ("unsupported content type: " ++ ctString r.contentType) none
            r.contentType none), .null)) := by
  refine ⟨fun h1 => ?_, fun h1 hd => ?_, fun h1 h2 h3 h4 hd => ?_,
    fun h1 h2 h3 h4 h5 h6 h7 => ?_, fun h1 h2 h3 h4 h5 h6 h7 => ?_⟩
  · simp [getResponsePayload, h1]
  · cases hp : containsSub (ctString r.contentType) "text/plain" with
    | true => simp [getResponsePayload, h1, hp]
    | false =>
      cases hh : containsSub (ctString r.contentType) "text/html" with
      | true => simp [getResponsePayload, h1, hp, hh]
      | false =>
        rcases hd with h | h | h
        · rw [hp] at h; cases h
        · rw [hh] at h; cases h
        · simp [getResponsePayload, h1, hp, hh, h]
  · cases hm : containsSub (ctString r.contentType) "multipart/form-data" with
    | true => simp [getResponsePayload, h1, h2, h3, h4, hm]
    | false =>
      rcases hd with h | h
      · rw [hm] at h; cases h
      · simp [getResponsePayload, h1, h2, h3, h4, hm, h]
  · simp [getResponsePayload, h1, h2, h3, h4, h5, h6, h7]
  · simp [getResponsePayload, h1, h2, h3, h4, h5, h6, h7, finishTuple]

/-- C7 witness: a content type containing `application/json` routes to the
`json` parser. -/
theorem getResponsePayload_router_witness :
    containsSub (ctString jsonOkResponse.contentType) "application/json" = true ∧
    getResponsePayload jsonOkResponse
      = finishTuple (extractPayload jsonOkResponse .json) :=
  ⟨by decide, (getResponsePayload_router jsonOkResponse).1 (by decide)⟩

/-- C8: a `TypeError` or `SyntaxError` raised by the selected body reader
yields the `'payload'` error with message "Failed to parse response", the
declared content type and the attempted parser; any other raised `Error`
(including a `DOMException`) yields the `'unknown'` error preserving the
original message and stack. -/
theorem extractPayload_classifies (r : Response) (p : ResponseParser) :
    (∀ msg stk, r.read p = .error (.typeError msg stk) →
      extractPayload r p
        = (some (.payload "Failed to parse response" stk r.contentType (some p)), .null))
    ∧ (∀ msg stk, r.read p = .error (.syntaxError msg stk) →
      extractPayload r p
        = (some (.payload "Failed to parse response" stk r.contentType (some p)), .null))
    ∧ (∀ msg stk, r.read p = .error (.otherError msg stk) →
      extractPayload r p = (some (.unknown msg stk), .null))
    ∧ (∀ name msg stk, r.read p = .error (.domException name msg stk) →
      extractPayload r p = (some (.unknown msg stk), .null)) := by
  refine ⟨fun msg stk h => ?_, fun msg stk h => ?_, fun msg stk h => ?_,
    fun name msg stk h => ?_⟩ <;> simp [extractPayload, h]

/-- C8 witness: the `formData()` reader of the JSON response raises a
`TypeError`, and extraction classifies it as the `'payload'` error. -/
theorem extractPayload_classifies_witness :
    jsonOkResponse.read .formData
      = .error (.typeError "Could not parse content as FormData." none) ∧
    extractPayload jsonOkResponse .formData
      = (some (.payload "Failed to parse response" none (some "application/json")
          (some .formData)), .null) :=
  ⟨rfl,
    (extractPayload_classifies jsonOkResponse .formData).1
      "Could not parse content as FormData." none rfl⟩

/-- C9: a transport failure is classified by the catch block — a
`DOMException` named "AbortError" yields `Fetch` sub-kind `abort`, any other
`DOMException` yields the Unknown error with its message; a `TypeError`
yields sub-kind `type`; a `SyntaxError` yields sub-kind `syntax`; any other
`Error` yields the Unknown error with its message; a non-`Error` throw
yields the Unknown error with the generic message "unknown error". -/
theorem fetchEither_transport_classifies (grp : Nat → Except JSException String)
    (ss es : Option Schema) :
    (∀ msg stk, fetchEither grp (.raised (.domException "AbortError" msg stk)) ss es
      = (some (.fetchErr .abort msg stk), .null))
    ∧ (∀ name msg stk, name ≠ "AbortError" →
      fetchEither grp (.raised (.domException name msg stk)) ss es
        = (some (.unknown msg stk), .null))
    ∧ (∀ msg stk, fetchEither grp (.raised (.typeError msg stk)) ss es
      = (some (.fetchErr .tpe msg stk), .null))
    ∧ (∀ msg stk, fetchEither grp (.raised (.syntaxError msg stk)) ss es
      = (some (.fetchErr .stx msg stk), .null))
    ∧ (∀ msg stk, fetchEither grp (.raised (.otherError msg stk)) ss es
      = (some (.unknown msg stk), .null))
    ∧ fetchEither grp (.raised .nonError) ss es
      = (some (.unknown "unknown error" none), .null) := by
  refine ⟨fun msg stk => ?_, fun name msg stk h => ?_, fun msg stk => ?_,
    fun msg stk => ?_, fun msg stk => ?_, ?_⟩ <;>
    simp [fetchEither, classifyTransport, *]

/-- C9 witness: an `AbortError` `DOMException` raised by the transport
yields the `Fetch` error with sub-kind `abort`, and a `DOMException` with a
different name yields the Unknown error. -/
theorem fetchEither_transport_classifies_witness :
    (fetchEither grpStd (.raised (.domException "AbortError"
        "The user aborted a request." none)) none none
      = (some (.fetchErr .abort "The user aborted a request." none), .null)) ∧
    (fetchEither grpStd (.raised (.domException "DataError"
        "Data provided does not meet requirements." none)) none none
      = (some (.unknown "Data provided does not meet requirements." none), .null)) :=
  ⟨(fetchEither_transport_classifies grpStd none none).1
      "The user aborted a request." none,
    (fetchEither_transport_classifies grpStd none none).2.1
      "DataError" "Data provided does not meet requirements." none (by decide)⟩

end TsErrorValue
